import Mathlib

/-!
Shallow embedding of the `lfs-api` package's token-acquisition and
request-authorization logic, together with theorems settling the frozen
claims about its specification.

The repository ships several historical variants of the same class:

* `src/dist/cjs/index.js` — the most recent build (SPA/PKCE variant); the
  default embedding target.  Definitions without a suffix model this file.
* `src/src/index.ts` — two TypeScript variants in one file: an early variant
  with separate client-credentials / authorization-code token fields
  (modelled by the `DualState` definitions, suffix `Ts1`), and a
  config-object variant (suffix `Ts2`).

JavaScript dynamics that the claims hinge on (truthiness, `undefined`
property access on error objects, `NaN` comparisons, template-literal
stringification) are modelled explicitly by `JSVal` and `JSNum`.
Instants and durations (`Date.now() / 1000`, `expires_in`) are rationals.
-/

/-- Model of the JavaScript values that flow through the token fields:
`null`, `undefined`, or a string. -/
inductive JSVal where
  | vNull
  | vUndefined
  | vStr (s : String)
deriving DecidableEq, Repr

/-- JavaScript truthiness of a `JSVal`: `null`, `undefined` and the empty
string are falsy; any non-empty string is truthy. -/
def JSVal.truthy : JSVal → Bool
  | .vStr s => s != ""
  | _ => false

/-- Template-literal stringification of a `JSVal`, as in
`` `Bearer ${x}` ``: `null` prints as `"null"`, `undefined` as
`"undefined"`. -/
def JSVal.toStr : JSVal → String
  | .vNull => "null"
  | .vUndefined => "undefined"
  | .vStr s => s

/-- Model of a JavaScript number that may be `NaN` (the result of
`Date.now() / 1000 + undefined` after a failed token exchange).  Finite
values are rationals. -/
inductive JSNum where
  | nan
  | num (q : ℚ)
deriving DecidableEq, Repr

/-- JavaScript comparison `a > x` where `a` is a finite number and `x` a
possibly-`NaN` number: any comparison with `NaN` is `false`. -/
def jsGt (a : ℚ) : JSNum → Bool
  | .nan => false
  | .num q => decide (q < a)

/-- The `client_credentials_flow` record of `dist/cjs/index.js`:
`{ access_token, expires_in }`.  Despite its source name, after
`_getClientCredentialsFlowAccessToken` the `expires_in` field holds an
absolute instant (`Date.now() / 1000 + res.expires_in`). -/
structure CCFlow where
  access_token : JSVal
  expires_in : JSNum
deriving DecidableEq, Repr

/-- The record installed by the constructor:
`{ access_token: null, expires_in: 0 }`. -/
def ccFlowInit : CCFlow := { access_token := .vNull, expires_in := .num 0 }

/-- The JSON body of a successful token-endpoint response:
`{ access_token, expires_in }` (seconds). -/
structure TokenResponse where
  access_token : String
  expires_in : ℚ
deriving DecidableEq, Repr

/-- Outcome of one `_getAccessToken` call.  On HTTP/network failure the
`catch` handler returns the error object itself as the resolved value, so a
failure is an ordinary value whose `access_token` / `expires_in` property
reads yield `undefined`. -/
inductive ExchangeOutcome where
  | success (r : TokenResponse)
  | failure
deriving DecidableEq, Repr

/-- Property read `res.access_token` on an exchange outcome: `undefined` on
an error object. -/
def ExchangeOutcome.accessTokenVal : ExchangeOutcome → JSVal
  | .success r => .vStr r.access_token
  | .failure => .vUndefined

/-- The expression `Date.now() / 1000 + res.expires_in` from
`_getClientCredentialsFlowAccessToken` in `dist/cjs/index.js`: on an error
object `res.expires_in` is `undefined` and the sum is `NaN`. -/
def addExpires (now : ℚ) : ExchangeOutcome → JSNum
  | .success r => .num (now + r.expires_in)
  | .failure => .nan

/-- State update of `_getClientCredentialsFlowAccessToken`
(`dist/cjs/index.js`, lines 111-127): overwrite the record with
`{ access_token: res.access_token, expires_in: Date.now()/1000 + res.expires_in }`.
There is no error check (the source carries a `// TODO: Error checking`). -/
def getClientCredentialsFlowAccessToken (now : ℚ) (outcome : ExchangeOutcome)
    (_st : CCFlow) : CCFlow :=
  { access_token := outcome.accessTokenVal
    expires_in := addExpires now outcome }

/-- The raw-duration state update of the config-object variant in
`src/src/index.ts` (lines 555-561): it stores `res.expires_in` itself, with
no `Date.now()/1000 +` term. -/
def getClientCredentialsFlowAccessTokenTs2 (outcome : ExchangeOutcome)
    (_st : CCFlow) : CCFlow :=
  { access_token := outcome.accessTokenVal
    expires_in := match outcome with
      | .success r => .num r.expires_in
      | .failure => .nan }

/-- Expiry check `_clientCredentialsFlowAccessTokenExpired`
(`dist/cjs/index.js`, lines 62-64): `Date.now() / 1000 > expires_in` —
a strict comparison. -/
def clientCredentialsFlowAccessTokenExpired (now : ℚ) (st : CCFlow) : Bool :=
  jsGt now st.expires_in

/-- Observable effects of one `makeRequest` call: whether a token exchange
was performed, the `Authorization` header sent to the resource endpoint,
and the token record afterwards. -/
structure RequestTrace where
  didExchange : Bool
  header : String
  finalState : CCFlow
deriving DecidableEq, Repr

/-- `makeRequest(endpoint, token)` from `dist/cjs/index.js` (lines 211-235),
restricted to its authorization behaviour: when the override is falsy and
the stored token is expired, perform one client-credentials exchange
(modelled by the ambient `outcome`), then send
`Authorization: Bearer ${token ? token : this.client_credentials_flow.access_token}`. -/
def makeRequest (now : ℚ) (token : JSVal) (outcome : ExchangeOutcome)
    (st : CCFlow) : RequestTrace :=
  let doExchange := !token.truthy && clientCredentialsFlowAccessTokenExpired now st
  let st2 := if doExchange then getClientCredentialsFlowAccessToken now outcome st else st
  { didExchange := doExchange
    header := "Bearer " ++ (if token.truthy then token else st2.access_token).toStr
    finalState := st2 }

/-- `makeRequest(endpoint, token)` from the config-object variant in
`src/src/index.ts` (lines 630-651).  Its guard reads
`!token && this._clientCredentialsFlowAccessTokenExpired` — the method is
referenced, not called, and a function object is always truthy, so the
expiry test is constant `true`. -/
def makeRequestTs2 (token : JSVal) (outcome : ExchangeOutcome)
    (st : CCFlow) : RequestTrace :=
  let doExchange := !token.truthy && true
  let st2 := if doExchange then getClientCredentialsFlowAccessTokenTs2 outcome st else st
  { didExchange := doExchange
    header := "Bearer " ++ (if token.truthy then token else st2.access_token).toStr
    finalState := st2 }

/-!
SHA-256 and Base64, as used by `_generateCodeChallengeFromVerifier` in
`dist/cjs/index.js`:

```
btoa(String.fromCharCode(...new Uint8Array(
    sha256(verifier).match(/.{1,2}/g).map((byte) => parseInt(byte, 16)))))
  .slice(0, -1)
  .replace(/[+]/g, "-")
  .replace(/\//g, "_")
```

`sha256` is the `js-sha256` package (hex digest of the UTF-8 bytes; modelled
here from FIPS 180-4, which the source relies on), `btoa` is standard
Base64.  Bytes are `Nat`s below 256.
-/

/-- Truncation to a 32-bit word. -/
def w32 (n : Nat) : Nat := n % 4294967296

/-- Right rotation of a 32-bit word by `n` places. -/
def rotr32 (n x : Nat) : Nat := w32 ((x >>> n) ||| (x <<< (32 - n)))

/-- FIPS 180-4 function `Σ0`. -/
def bigSigma0 (x : Nat) : Nat := rotr32 2 x ^^^ rotr32 13 x ^^^ rotr32 22 x

/-- FIPS 180-4 function `Σ1`. -/
def bigSigma1 (x : Nat) : Nat := rotr32 6 x ^^^ rotr32 11 x ^^^ rotr32 25 x

/-- FIPS 180-4 function `σ0`. -/
def smallSigma0 (x : Nat) : Nat := rotr32 7 x ^^^ rotr32 18 x ^^^ (x >>> 3)

/-- FIPS 180-4 function `σ1`. -/
def smallSigma1 (x : Nat) : Nat := rotr32 17 x ^^^ rotr32 19 x ^^^ (x >>> 10)

/-- FIPS 180-4 function `Ch`. -/
def chFn (e f g : Nat) : Nat := (e &&& f) ^^^ ((e ^^^ 4294967295) &&& g)

/-- FIPS 180-4 function `Maj`. -/
def majFn (a b c : Nat) : Nat := (a &&& b) ^^^ (a &&& c) ^^^ (b &&& c)

/-- The 64 SHA-256 round constants. -/
def sha256K : List Nat :=
  [1116352408, 1899447441, 3049323471, 3921009573,
   961987163, 1508970993, 2453635748, 2870763221,
   3624381080, 310598401, 607225278, 1426881987,
   1925078388, 2162078206, 2614888103, 3248222580,
   3835390401, 4022224774, 264347078, 604807628,
   770255983, 1249150122, 1555081692, 1996064986,
   2554220882, 2821834349, 2952996808, 3210313671,
   3336571891, 3584528711, 113926993, 338241895,
   666307205, 773529912, 1294757372, 1396182291,
   1695183700, 1986661051, 2177026350, 2456956037,
   2730485921, 2820302411, 3259730800, 3345764771,
   3516065817, 3600352804, 4094571909, 275423344,
   430227734, 506948616, 659060556, 883997877,
   958139571, 1322822218, 1537002063, 1747873779,
   1955562222, 2024104815, 2227730452, 2361852424,
   2428436474, 2756734187, 3204031479, 3329325298]

/-- Eight 32-bit hash words; doubles as the working variables a-h of one
round (in field order). -/
structure Hash8 where
  h0 : Nat
  h1 : Nat
  h2 : Nat
  h3 : Nat
  h4 : Nat
  h5 : Nat
  h6 : Nat
  h7 : Nat
deriving DecidableEq, Repr

/-- The SHA-256 initial hash value. -/
def sha256InitHash : Hash8 :=
  ⟨1779033703, 3144134277, 1013904242, 2773480762,
   1359893119, 2600822924, 528734635, 1541459225⟩

/-- Big-endian assembly of a byte stream into 32-bit words. -/
def bytesToWords : List Nat → List Nat
  | b0 :: b1 :: b2 :: b3 :: rest =>
      (b0 * 16777216 + b1 * 65536 + b2 * 256 + b3) :: bytesToWords rest
  | _ => []

/-- Next word of the message schedule, computed from the last 16 words
accumulated so far. -/
def nextScheduleWord (acc : List Nat) : Nat :=
  w32 (smallSigma1 (acc.getD (acc.length - 2) 0) + acc.getD (acc.length - 7) 0 +
       smallSigma0 (acc.getD (acc.length - 15) 0) + acc.getD (acc.length - 16) 0)

/-- Extension of the 16 chunk words to the 64-word message schedule. -/
def messageSchedule (ws : List Nat) : List Nat :=
  (List.range 48).foldl (fun acc _ => acc ++ [nextScheduleWord acc]) ws

/-- One SHA-256 round: state is the working tuple (a, b, c, d, e, f, g, h),
`wk` the pair of schedule word and round constant. -/
def roundStep (s : Hash8) (wk : Nat × Nat) : Hash8 :=
  let t1 := w32 (s.h7 + bigSigma1 s.h4 + chFn s.h4 s.h5 s.h6 + wk.2 + wk.1)
  let t2 := w32 (bigSigma0 s.h0 + majFn s.h0 s.h1 s.h2)
  ⟨w32 (t1 + t2), s.h0, s.h1, s.h2, w32 (s.h3 + t1), s.h4, s.h5, s.h6⟩

/-- Compression of one 64-byte chunk into the running hash. -/
def compressChunk (H : Hash8) (chunk : List Nat) : Hash8 :=
  let s := ((messageSchedule (bytesToWords chunk)).zip sha256K).foldl roundStep H
  ⟨w32 (H.h0 + s.h0), w32 (H.h1 + s.h1), w32 (H.h2 + s.h2), w32 (H.h3 + s.h3),
   w32 (H.h4 + s.h4), w32 (H.h5 + s.h5), w32 (H.h6 + s.h6), w32 (H.h7 + s.h7)⟩

/-- Big-endian 8-byte encoding of a 64-bit length value. -/
def toBeBytes8 (n : Nat) : List Nat :=
  [n / 72057594037927936 % 256, n / 281474976710656 % 256,
   n / 1099511627776 % 256, n / 4294967296 % 256, n / 16777216 % 256,
   n / 65536 % 256, n / 256 % 256, n % 256]

/-- SHA-256 message padding: a `0x80` byte, zeros up to 56 mod 64, then the
bit length as 8 big-endian bytes. -/
def padMessage (msg : List Nat) : List Nat :=
  msg ++ 128 :: List.replicate ((120 - (msg.length + 1) % 64) % 64) 0 ++
    toBeBytes8 (msg.length * 8)

/-- Split a byte stream into 64-byte chunks. -/
def chunks64 (l : List Nat) : List (List Nat) :=
  if h : l = [] then []
  else l.take 64 :: chunks64 (l.drop 64)
termination_by l.length
decreasing_by
  simp only [List.length_drop]
  have hl : 0 < l.length := List.length_pos.mpr h
  omega

/-- Big-endian byte serialization of one hash word. -/
def wordBytes (w : Nat) : List Nat :=
  [w / 16777216 % 256, w / 65536 % 256, w / 256 % 256, w % 256]

/-- The 32-byte digest corresponding to a final hash value. -/
def digestBytes (H : Hash8) : List Nat :=
  wordBytes H.h0 ++ wordBytes H.h1 ++ wordBytes H.h2 ++ wordBytes H.h3 ++
  wordBytes H.h4 ++ wordBytes H.h5 ++ wordBytes H.h6 ++ wordBytes H.h7

/-- Byte stream of a verifier string.  The claims concern ASCII verifiers
(hex strings), on which the UTF-8 encoding used by `js-sha256` is the
identity on code points; the `% 256` keeps arbitrary inputs byte-sized. -/
def asciiBytes (s : String) : List Nat := s.data.map (fun c => c.toNat % 256)

/-- SHA-256 digest (as 32 bytes) of a string. -/
def sha256Bytes (s : String) : List Nat :=
  digestBytes ((chunks64 (padMessage (asciiBytes s))).foldl compressChunk sha256InitHash)

/-- Lowercase hex digit. -/
def hexDigitChar : Nat → Char
  | 0 => '0' | 1 => '1' | 2 => '2' | 3 => '3' | 4 => '4' | 5 => '5'
  | 6 => '6' | 7 => '7' | 8 => '8' | 9 => '9' | 10 => 'a' | 11 => 'b'
  | 12 => 'c' | 13 => 'd' | 14 => 'e' | 15 => 'f' | _ => '0'

/-- Lowercase hex rendering of a byte stream, two digits per byte. -/
def bytesToHex (bs : List Nat) : List Char :=
  bs.flatMap (fun b => [hexDigitChar (b / 16), hexDigitChar (b % 16)])

/-- The hex digest string returned by `js-sha256`'s `sha256(verifier)`. -/
def sha256Hex (s : String) : String := String.mk (bytesToHex (sha256Bytes s))

/-- Numeric value of a hex digit, as `parseInt(c, 16)` on the digits
`js-sha256` emits. -/
def hexVal : Char → Nat
  | '0' => 0 | '1' => 1 | '2' => 2 | '3' => 3 | '4' => 4 | '5' => 5
  | '6' => 6 | '7' => 7 | '8' => 8 | '9' => 9 | 'a' => 10 | 'b' => 11
  | 'c' => 12 | 'd' => 13 | 'e' => 14 | 'f' => 15 | _ => 0

/-- The pipeline `.match(/.{1,2}/g).map((byte) => parseInt(byte, 16))`:
parse a hex string two characters at a time. -/
def hexPairsToBytes : List Char → List Nat
  | c1 :: c2 :: rest => (hexVal c1 * 16 + hexVal c2) :: hexPairsToBytes rest
  | [c] => [hexVal c]
  | [] => []

/-- The standard Base64 alphabet, as indexed by `btoa`. -/
def b64Alphabet : List Char :=
  "ABCDEFGHIJKLMNOPQRSTUVWXYZabcdefghijklmnopqrstuvwxyz0123456789+/".data

/-- Alphabet character for a 6-bit group. -/
def b64Char (n : Nat) : Char := b64Alphabet.getD n 'A'

/-- Standard Base64 with `=` padding over a byte stream, as computed by
`btoa(String.fromCharCode(...bytes))`. -/
def b64Encode : List Nat → List Char
  | a :: b :: c :: rest =>
      let n := a * 65536 + b * 256 + c
      b64Char (n / 262144) :: b64Char (n / 4096 % 64) :: b64Char (n / 64 % 64) ::
        b64Char (n % 64) :: b64Encode rest
  | [a, b] =>
      let n := a * 65536 + b * 256
      [b64Char (n / 262144), b64Char (n / 4096 % 64), b64Char (n / 64 % 64), '=']
  | [a] =>
      let n := a * 65536
      [b64Char (n / 262144), b64Char (n / 4096 % 64), '=', '=']
  | [] => []

/-- The `.replace(/[+]/g, "-")` step. -/
def replacePlusWithDash (l : List Char) : List Char :=
  l.map (fun c => if c = '+' then '-' else c)

/-- The `.replace(/\//g, "_")` step. -/
def replaceSlashWithUnderscore (l : List Char) : List Char :=
  l.map (fun c => if c = '/' then '_' else c)

/-- `_generateCodeChallengeFromVerifier` from `dist/cjs/index.js`
(lines 282-291): Base64 of the digest bytes recovered from the hex digest,
with the final character sliced off and `+`, `/` replaced. -/
def generateCodeChallengeFromVerifier (verifier : String) : String :=
  String.mk (replaceSlashWithUnderscore (replacePlusWithDash
    (b64Encode (hexPairsToBytes (sha256Hex verifier).data)).dropLast))

/-- Removal of every trailing `=` character. -/
def stripTrailingEq : List Char → List Char
  | [] => []
  | c :: rest =>
      match stripTrailingEq rest with
      | [] => if c = '=' then [] else [c]
      | r => c :: r

/-- Spec-side definition, following the spec's words: "compute SHA-256
digest of the verifier's ASCII bytes, then Base64URL-encode without padding
(`+`→`-`, `/`→`_`, trailing `=` stripped)". -/
def specDeriveChallenge (verifier : String) : String :=
  String.mk (replaceSlashWithUnderscore (replacePlusWithDash
    (stripTrailingEq (b64Encode (sha256Bytes verifier)))))

/-!
The `LFSAPI` class of `dist/cjs/index.js`: constructor fields, the PKCE
pair, `generateAuthFlowURL`, and the token-endpoint request bodies.  URL
search parameters are modelled as key/value lists (percent-encoding of the
values is irrelevant to every claim).  The sources of randomness
(`window.crypto.getRandomValues` behind `_generateCodeVerifier`, `uuidv4()`)
are passed in as explicit arguments.
-/

/-- Instance state of the `LFSAPI` class in `dist/cjs/index.js` (the fields
the claims depend on). -/
structure LFSAPIState where
  client_id : String
  client_secret : JSVal
  redirect_uri : JSVal
  spa : Bool
  pkce_code_verifier : JSVal
  pkce_code_challenge : JSVal
  idURL : String
  verbose : Bool
  client_credentials_flow : CCFlow
deriving DecidableEq, Repr

/-- The constructor (`dist/cjs/index.js`, lines 28-55): the PKCE pair starts
as `{ code_verifier: null, code_challenge: null }`, the token record as
`{ access_token: null, expires_in: 0 }`, and `verbose` as `false`. -/
def mkLFSAPI (client_id : String) (client_secret redirect_uri : JSVal)
    (spa : Bool) : LFSAPIState :=
  { client_id := client_id
    client_secret := client_secret
    redirect_uri := redirect_uri
    spa := spa
    pkce_code_verifier := .vNull
    pkce_code_challenge := .vNull
    idURL := "https://id.lfs.net"
    verbose := false
    client_credentials_flow := ccFlowInit }

/-- `getPKCEVerifier()`: returns `this.pkce.code_verifier`. -/
def getPKCEVerifier (m : LFSAPIState) : JSVal := m.pkce_code_verifier

/-- `setPKCEVerifier(code_verifier)`: sets `this.pkce.code_verifier`. -/
def setPKCEVerifier (m : LFSAPIState) (code_verifier : String) : LFSAPIState :=
  { m with pkce_code_verifier := .vStr code_verifier }

/-- `_generatePKCEPair()` (`dist/cjs/index.js`, lines 310-322): only when
`this.spa` is set, overwrite the pair with a fresh verifier (the random
value `rnd`) and its derived challenge. -/
def generatePKCEPair (m : LFSAPIState) (rnd : String) : LFSAPIState :=
  if m.spa then
    { m with pkce_code_verifier := .vStr rnd
             pkce_code_challenge := .vStr (generateCodeChallengeFromVerifier rnd) }
  else m

/-- Rendering of `URLSearchParams` into a query string. -/
def urlParamsToString (ps : List (String × String)) : String :=
  String.intercalate "&" (ps.map (fun p => p.1 ++ "=" ++ p.2))

/-- Console output of `_error(msg)`: printed only when `verbose` is set
(`dist/cjs/index.js`, lines 257-260). -/
def errorLog (verbose : Bool) (msg : String) : List String :=
  if verbose then ["LFSAPI Error: " ++ msg] else []

/-- Observable outcome of `generateAuthFlowURL`: the returned value
(`undefined` modelled as `none`), the console error output, and the
instance state afterwards. -/
structure AuthFlowOutcome where
  result : Option (String × String)
  errlog : List String
  stateAfter : LFSAPIState
deriving DecidableEq, Repr

/-- `generateAuthFlowURL(scope, state)` from `dist/cjs/index.js`
(lines 73-105).  `uuid` models `uuidv4()`, `rnd` the random verifier drawn
inside `_generatePKCEPair`.  With no `redirect_uri` the function logs
"Cannot generate auth flow URL for client credentials flow" through
`_error` and returns `undefined`. -/
def generateAuthFlowURL (m : LFSAPIState) (scope : String) (state : JSVal)
    (uuid rnd : String) : AuthFlowOutcome :=
  let csrfToken := if state.truthy then state.toStr else uuid
  let m2 := if m.spa then generatePKCEPair m rnd else m
  let baseParams := [("response_type", "code"), ("client_id", m.client_id),
    ("redirect_uri", m.redirect_uri.toStr), ("scope", scope), ("state", csrfToken)]
  let params :=
    if m2.spa && m2.redirect_uri.truthy && m2.pkce_code_challenge.truthy then
      baseParams ++
        [("code_challenge", m2.pkce_code_challenge.toStr),
         ("code_challenge_method", "S256")]
    else baseParams
  if m.redirect_uri.truthy then
    { result := some (m.idURL ++ "/oauth2/authorize?" ++ urlParamsToString params,
        csrfToken)
      errlog := []
      stateAfter := m2 }
  else
    { result := none
      errlog := errorLog m.verbose
        "Cannot generate auth flow URL for client credentials flow"
      stateAfter := m2 }

/-- Request body built by `getAuthFlowTokens(code)` (`dist/cjs/index.js`,
lines 163-181): the four mutual parameters, then `code_verifier` when
`this.spa && this.redirect_uri && this.pkce.code_verifier`, or else
`client_secret` when `this.redirect_uri`. -/
def getAuthFlowTokensBody (m : LFSAPIState) (code : String) :
    List (String × String) :=
  let ps := [("grant_type", "authorization_code"), ("client_id", m.client_id),
    ("redirect_uri", m.redirect_uri.toStr), ("code", code)]
  if m.spa && m.redirect_uri.truthy && m.pkce_code_verifier.truthy then
    ps ++ [("code_verifier", m.pkce_code_verifier.toStr)]
  else if m.redirect_uri.truthy then
    ps ++ [("client_secret", m.client_secret.toStr)]
  else ps

/-- Key membership in a request body. -/
def bodyHasKey (ps : List (String × String)) (k : String) : Bool :=
  ps.any (fun p => p.1 == k)

/-!
The early TypeScript variant (first class in `src/src/index.ts`) keeps two
independent token records in four instance fields and overwrites each pair
through the `_getAccessToken` callback.  Both callbacks store the raw
`expires_in` duration.
-/

/-- Token fields of the first `src/src/index.ts` variant: one
client-credentials record and one authorization-code record. -/
structure DualState where
  client_credentials_flow_access_token : String
  authorization_code_flow_access_token : String
  client_credentials_flow_expires : ℚ
  authorization_code_flow_expires : ℚ
deriving DecidableEq, Repr

/-- Constructor state of that variant: empty tokens, zero expiries. -/
def dualInit : DualState := ⟨"", "", 0, 0⟩

/-- Callback of `_getAuthorizationCodeFlowAccessToken` (`src/src/index.ts`,
lines 168-174): stores `access_token` and the raw `expires_in` into the
authorization-code fields only. -/
def getAuthorizationCodeFlowAccessTokenTs1 (r : TokenResponse)
    (s : DualState) : DualState :=
  { s with authorization_code_flow_access_token := r.access_token
           authorization_code_flow_expires := r.expires_in }

/-- Callback of `_getClientCredentialsFlowAccessToken` (`src/src/index.ts`,
lines 189-195): stores `access_token` and the raw `expires_in` into the
client-credentials fields only. -/
def getClientCredentialsFlowAccessTokenTs1 (r : TokenResponse)
    (s : DualState) : DualState :=
  { s with client_credentials_flow_access_token := r.access_token
           client_credentials_flow_expires := r.expires_in }

/-- One token acquisition on that variant, tagged by flow kind. -/
inductive Acquire where
  | cc (r : TokenResponse)
  | ac (r : TokenResponse)
deriving DecidableEq, Repr

/-- Apply one acquisition to the instance state. -/
def applyAcquire (s : DualState) : Acquire → DualState
  | .cc r => getClientCredentialsFlowAccessTokenTs1 r s
  | .ac r => getAuthorizationCodeFlowAccessTokenTs1 r s

/-- Flow kind of an acquisition. -/
def Acquire.isCC : Acquire → Bool
  | .cc _ => true
  | .ac _ => false

/-!
Helper lemmas: frame preservation on the dual-record state, the hex
round-trip, and the structure of Base64 output on 32-byte digests.
-/

/-- Helper: a run of client-credentials acquisitions leaves the
authorization-code fields unchanged. -/
theorem foldl_cc_preserves_ac (acqs : List Acquire) :
    ∀ s : DualState, (∀ a ∈ acqs, a.isCC = true) →
      (acqs.foldl applyAcquire s).authorization_code_flow_access_token
          = s.authorization_code_flow_access_token ∧
      (acqs.foldl applyAcquire s).authorization_code_flow_expires
          = s.authorization_code_flow_expires := by
  induction acqs with
  | nil => intro s _; exact ⟨rfl, rfl⟩
  | cons a t ih =>
    intro s hall
    have ha : a.isCC = true := hall a (List.mem_cons_self a t)
    have ht : ∀ b ∈ t, b.isCC = true := fun b hb => hall b (List.mem_cons_of_mem a hb)
    cases a with
    | cc r =>
      have := ih (applyAcquire s (.cc r)) ht
      simpa [applyAcquire, getClientCredentialsFlowAccessTokenTs1] using this
    | ac r => simp [Acquire.isCC] at ha

/-- Helper: a run of authorization-code acquisitions leaves the
client-credentials fields unchanged. -/
theorem foldl_ac_preserves_cc (acqs : List Acquire) :
    ∀ s : DualState, (∀ a ∈ acqs, a.isCC = false) →
      (acqs.foldl applyAcquire s).client_credentials_flow_access_token
          = s.client_credentials_flow_access_token ∧
      (acqs.foldl applyAcquire s).client_credentials_flow_expires
          = s.client_credentials_flow_expires := by
  induction acqs with
  | nil => intro s _; exact ⟨rfl, rfl⟩
  | cons a t ih =>
    intro s hall
    have ha : a.isCC = false := hall a (List.mem_cons_self a t)
    have ht : ∀ b ∈ t, b.isCC = false := fun b hb => hall b (List.mem_cons_of_mem a hb)
    cases a with
    | cc r => simp [Acquire.isCC] at ha
    | ac r =>
      have := ih (applyAcquire s (.ac r)) ht
      simpa [applyAcquire, getAuthorizationCodeFlowAccessTokenTs1] using this

/-- Helper: hex value of a hex digit, on digits below 16. -/
theorem hexVal_hexDigitChar : ∀ n, n < 16 → hexVal (hexDigitChar n) = n := by decide

/-- Helper: hex printing then two-digit parsing is the identity on byte
streams. -/
theorem hexPairsToBytes_bytesToHex :
    ∀ bs : List Nat, (∀ b ∈ bs, b < 256) → hexPairsToBytes (bytesToHex bs) = bs := by
  intro bs
  induction bs with
  | nil => intro _; rfl
  | cons b t ih =>
    intro hb
    have hb0 : b < 256 := hb b (List.mem_cons_self b t)
    have hbt : ∀ x ∈ t, x < 256 := fun x hx => hb x (List.mem_cons_of_mem b hx)
    have h1 : hexVal (hexDigitChar (b / 16)) = b / 16 :=
      hexVal_hexDigitChar (b / 16) (by omega)
    have h2 : hexVal (hexDigitChar (b % 16)) = b % 16 :=
      hexVal_hexDigitChar (b % 16) (by omega)
    have hdm : b / 16 * 16 + b % 16 = b := by omega
    simp only [bytesToHex, List.flatMap_cons, List.cons_append, List.nil_append,
      hexPairsToBytes, h1, h2, hdm]
    exact congrArg (b :: ·) (ih hbt)

/-- Helper: Base64 alphabet characters are never the pad character. -/
theorem b64Char_ne_eq : ∀ n, n < 64 → b64Char n ≠ '=' := by decide

/-- Helper: the encoder output is at least four characters on inputs of at
least two bytes. -/
theorem b64Encode_length_ge (l : List Nat) (h : 2 ≤ l.length) :
    4 ≤ (b64Encode l).length := by
  rcases l with _ | ⟨a, _ | ⟨b, _ | ⟨c, rest⟩⟩⟩ <;>
    simp [b64Encode] at h ⊢

/-- Helper: stripping trailing pads commutes with consing onto a list that
keeps at least one character. -/
theorem stripTrailingEq_cons_of_ne_nil (c : Char) (l : List Char)
    (h : stripTrailingEq l ≠ []) :
    stripTrailingEq (c :: l) = c :: stripTrailingEq l := by
  cases hst : stripTrailingEq l with
  | nil => exact absurd hst h
  | cons x xs =>
    simp only [stripTrailingEq, hst]

/-- Helper: stripping the trailing pad of a three-character alphabet run. -/
theorem stripTrailingEq_three (k1 k2 k3 : Char)
    (h1 : k1 ≠ '=') (h2 : k2 ≠ '=') (h3 : k3 ≠ '=') :
    stripTrailingEq [k1, k2, k3, '='] = [k1, k2, k3] := by
  simp [stripTrailingEq, h1, h2, h3]

/-- Helper: on byte streams of length ≡ 2 (mod 3) — e.g. a 32-byte SHA-256
digest — Base64 ends in exactly one pad, so slicing off the last character
(the source's `.slice(0, -1)`) agrees with stripping trailing `=` (the
spec's wording), and the remainder is pad-free. -/
theorem b64_strip_eq_dropLast :
    ∀ bs : List Nat, (∀ x ∈ bs, x < 256) → bs.length % 3 = 2 →
      stripTrailingEq (b64Encode bs) = (b64Encode bs).dropLast ∧
      ∀ c ∈ (b64Encode bs).dropLast, c ≠ '=' := by
  intro bs
  induction bs using b64Encode.induct with
  | case1 a b c rest ih =>
    intro hb hlen
    have hbr : ∀ x ∈ rest, x < 256 := by
      intro x hx; exact hb x (by simp [hx])
    have hlr : rest.length % 3 = 2 := by
      simp only [List.length_cons] at hlen; omega
    have ha : a < 256 := hb a (by simp)
    have hbb : b < 256 := hb b (by simp)
    have hc : c < 256 := hb c (by simp)
    obtain ⟨ihs, ihne⟩ := ih hbr hlr
    have hlen2 : 2 ≤ rest.length := by omega
    have hEl : 4 ≤ (b64Encode rest).length := b64Encode_length_ge rest hlen2
    have hn : a * 65536 + b * 256 + c < 16777216 := by omega
    have hk1 : b64Char ((a * 65536 + b * 256 + c) / 262144) ≠ '=' :=
      b64Char_ne_eq _ (by omega)
    have hk2 : b64Char ((a * 65536 + b * 256 + c) / 4096 % 64) ≠ '=' :=
      b64Char_ne_eq _ (by omega)
    have hk3 : b64Char ((a * 65536 + b * 256 + c) / 64 % 64) ≠ '=' :=
      b64Char_ne_eq _ (by omega)
    have hk4 : b64Char ((a * 65536 + b * 256 + c) % 64) ≠ '=' :=
      b64Char_ne_eq _ (by omega)
    obtain ⟨e, E, hE⟩ : ∃ e E, b64Encode rest = e :: E := by
      cases hEe : b64Encode rest with
      | nil => rw [hEe] at hEl; simp at hEl
      | cons e E => exact ⟨e, E, rfl⟩
    have hdropne : stripTrailingEq (b64Encode rest) ≠ [] := by
      rw [ihs]
      intro hnil
      have := congrArg List.length hnil
      simp [List.length_dropLast] at this
      omega
    have hstep : b64Encode (a :: b :: c :: rest) =
        b64Char ((a * 65536 + b * 256 + c) / 262144) ::
        b64Char ((a * 65536 + b * 256 + c) / 4096 % 64) ::
        b64Char ((a * 65536 + b * 256 + c) / 64 % 64) ::
        b64Char ((a * 65536 + b * 256 + c) % 64) :: b64Encode rest := by
      simp [b64Encode]
    have s4 : stripTrailingEq (b64Char ((a * 65536 + b * 256 + c) % 64) :: b64Encode rest)
        = b64Char ((a * 65536 + b * 256 + c) % 64) :: stripTrailingEq (b64Encode rest) :=
      stripTrailingEq_cons_of_ne_nil _ _ hdropne
    have s4ne : stripTrailingEq
        (b64Char ((a * 65536 + b * 256 + c) % 64) :: b64Encode rest) ≠ [] := by
      rw [s4]; exact List.cons_ne_nil _ _
    have s3 : stripTrailingEq (b64Char ((a * 65536 + b * 256 + c) / 64 % 64) ::
          b64Char ((a * 65536 + b * 256 + c) % 64) :: b64Encode rest)
        = b64Char ((a * 65536 + b * 256 + c) / 64 % 64) :: stripTrailingEq
            (b64Char ((a * 65536 + b * 256 + c) % 64) :: b64Encode rest) :=
      stripTrailingEq_cons_of_ne_nil _ _ s4ne
    have s3ne : stripTrailingEq (b64Char ((a * 65536 + b * 256 + c) / 64 % 64) ::
        b64Char ((a * 65536 + b * 256 + c) % 64) :: b64Encode rest) ≠ [] := by
      rw [s3]; exact List.cons_ne_nil _ _
    have s2 : stripTrailingEq (b64Char ((a * 65536 + b * 256 + c) / 4096 % 64) ::
          b64Char ((a * 65536 + b * 256 + c) / 64 % 64) ::
          b64Char ((a * 65536 + b * 256 + c) % 64) :: b64Encode rest)
        = b64Char ((a * 65536 + b * 256 + c) / 4096 % 64) :: stripTrailingEq
            (b64Char ((a * 65536 + b * 256 + c) / 64 % 64) ::
             b64Char ((a * 65536 + b * 256 + c) % 64) :: b64Encode rest) :=
      stripTrailingEq_cons_of_ne_nil _ _ s3ne
    have s2ne : stripTrailingEq (b64Char ((a * 65536 + b * 256 + c) / 4096 % 64) ::
        b64Char ((a * 65536 + b * 256 + c) / 64 % 64) ::
        b64Char ((a * 65536 + b * 256 + c) % 64) :: b64Encode rest) ≠ [] := by
      rw [s2]; exact List.cons_ne_nil _ _
    constructor
    · rw [hstep]
      rw [stripTrailingEq_cons_of_ne_nil _ _ s2ne, s2, s3, s4, ihs, hE]
      simp
    · rw [hstep, hE]
      intro x hx
      simp only [List.dropLast_cons₂, List.mem_cons] at hx
      rcases hx with rfl | rfl | rfl | rfl | hx
      · exact hk1
      · exact hk2
      · exact hk3
      · exact hk4
      · exact ihne x (by rw [hE]; simpa using hx)
  | case2 a b =>
    intro hb _
    have ha : a < 256 := hb a (by simp)
    have hbb : b < 256 := hb b (by simp)
    have hn : a * 65536 + b * 256 < 16777216 := by omega
    have hk1 : b64Char ((a * 65536 + b * 256) / 262144) ≠ '=' :=
      b64Char_ne_eq _ (by omega)
    have hk2 : b64Char ((a * 65536 + b * 256) / 4096 % 64) ≠ '=' :=
      b64Char_ne_eq _ (by omega)
    have hk3 : b64Char ((a * 65536 + b * 256) / 64 % 64) ≠ '=' :=
      b64Char_ne_eq _ (by omega)
    have hstep : b64Encode [a, b] =
        [b64Char ((a * 65536 + b * 256) / 262144),
         b64Char ((a * 65536 + b * 256) / 4096 % 64),
         b64Char ((a * 65536 + b * 256) / 64 % 64), '='] := by
      simp [b64Encode]
    rw [hstep]
    refine ⟨stripTrailingEq_three _ _ _ hk1 hk2 hk3, ?_⟩
    intro x hx
    simp only [List.dropLast_cons₂, List.dropLast_single,
      List.mem_cons, List.not_mem_nil, or_false] at hx
    rcases hx with rfl | rfl | rfl
    · exact hk1
    · exact hk2
    · exact hk3
  | case3 a =>
    intro _ hlen
    simp at hlen
  | case4 =>
    intro _ hlen
    simp at hlen

/-- Helper: each serialized hash word contributes bytes below 256. -/
theorem wordBytes_lt (w : Nat) : ∀ b ∈ wordBytes w, b < 256 := by
  intro b hb
  simp only [wordBytes, List.mem_cons, List.not_mem_nil, or_false] at hb
  rcases hb with rfl | rfl | rfl | rfl <;> omega

/-- Helper: a SHA-256 digest has exactly 32 bytes. -/
theorem sha256Bytes_length (s : String) : (sha256Bytes s).length = 32 := by
  simp [sha256Bytes, digestBytes, wordBytes]

/-- Helper: every SHA-256 digest byte is below 256. -/
theorem sha256Bytes_lt (s : String) : ∀ b ∈ sha256Bytes s, b < 256 := by
  intro b hb
  simp only [sha256Bytes, digestBytes, List.mem_append] at hb
  rcases hb with ((((((hb | hb) | hb) | hb) | hb) | hb) | hb) | hb <;>
    exact wordBytes_lt _ b hb

/-- Helper: the source's hex round-trip (`sha256(verifier)` rendered as hex,
then re-parsed two digits at a time) recovers the digest bytes. -/
theorem sha256_hex_roundtrip (s : String) :
    hexPairsToBytes (sha256Hex s).data = sha256Bytes s :=
  hexPairsToBytes_bytesToHex (sha256Bytes s) (sha256Bytes_lt s)

/-!
The claims.
-/

/-- Claim C1 counterexample: at the exact expiry instant `t0 + d` (issuance
at `t0 = 0`, `expires_in = 60`, query at `now = 60`), the code reports the
token **not** expired, while the claim demands "expired at every query
instant ≥ t0+d" (`isExpired(now)` iff `now >= expires_at`).  The source
comparison is strict (`Date.now() / 1000 > expires`). -/
theorem c1_counterexample :
    (60 : ℚ) ≥ 0 + 60 ∧
    clientCredentialsFlowAccessTokenExpired 60
      (getClientCredentialsFlowAccessToken 0 (.success ⟨"tok", 60⟩) ccFlowInit) = false := by
  constructor
  · norm_num
  · norm_num [clientCredentialsFlowAccessTokenExpired,
      getClientCredentialsFlowAccessToken, addExpires, jsGt]

/-- Claim C1, amended: a token issued at `t0` with `expires_in = d` is
reported not-expired on the closed interval `[t0, t0+d]` and expired
exactly when `now > t0 + d` (strictly); a never-issued record
(`expires_at = 0`) is reported expired at every positive instant. -/
theorem c1_expiry_check (t0 d now : ℚ) (tok : String) :
    (clientCredentialsFlowAccessTokenExpired now
        (getClientCredentialsFlowAccessToken t0 (.success ⟨tok, d⟩) ccFlowInit) = true
      ↔ t0 + d < now) ∧
    (0 < now → clientCredentialsFlowAccessTokenExpired now ccFlowInit = true) := by
  constructor
  · simp [clientCredentialsFlowAccessTokenExpired,
      getClientCredentialsFlowAccessToken, addExpires, jsGt]
  · intro h
    simp [clientCredentialsFlowAccessTokenExpired, ccFlowInit, jsGt, h]

/-- Witness for `c1_expiry_check` at `t0 = 0`, `d = 60`, `now = 61` and at
`now = 1` on the never-issued record. -/
theorem c1_expiry_check_witness :
    clientCredentialsFlowAccessTokenExpired 61
      (getClientCredentialsFlowAccessToken 0 (.success ⟨"tok", 60⟩) ccFlowInit) = true ∧
    clientCredentialsFlowAccessTokenExpired 1 ccFlowInit = true :=
  ⟨((c1_expiry_check 0 60 61 "tok").1).mpr (by norm_num),
   (c1_expiry_check 0 60 1 "tok").2 (by norm_num)⟩

/-- Claim C2 (code bug): evaluation at the failing input.  A fresh manager
whose token exchange fails (the token endpoint returns an error, e.g.
HTTP 401) does not propagate the failure: `makeRequest` still performs the
resource call with header `Authorization: Bearer undefined`, having stored
`access_token = undefined` and a `NaN` expiry — and because every
comparison with `NaN` is false, a later `makeRequest` considers the record
unexpired, never retries the exchange, and sends `Bearer undefined` again. -/
theorem c2_failed_exchange_effects :
    (makeRequest 1000 .vUndefined .failure ccFlowInit).didExchange = true ∧
    (makeRequest 1000 .vUndefined .failure ccFlowInit).header = "Bearer undefined" ∧
    (makeRequest 1000 .vUndefined .failure ccFlowInit).finalState =
      { access_token := .vUndefined, expires_in := .nan } ∧
    (makeRequest 2000 .vUndefined (.success ⟨"fresh", 3600⟩)
      (makeRequest 1000 .vUndefined .failure ccFlowInit).finalState).didExchange = false ∧
    (makeRequest 2000 .vUndefined (.success ⟨"fresh", 3600⟩)
      (makeRequest 1000 .vUndefined .failure ccFlowInit).finalState).header
      = "Bearer undefined" := by
  refine ⟨?_, ?_, ?_, ?_, ?_⟩ <;>
    norm_num [makeRequest, clientCredentialsFlowAccessTokenExpired, ccFlowInit,
      getClientCredentialsFlowAccessToken, addExpires, jsGt, JSVal.truthy,
      JSVal.toStr, ExchangeOutcome.accessTokenVal] <;> rfl

/-- Claim C3 (code bug): evaluation at the failing input.  In
`src/src/index.ts` both the authorization-code callback (first variant) and
the client-credentials store (config-object variant) keep the raw
`expires_in` duration: an exchange at instant 1000 answering
`expires_in = 3600` stores `3600`, not the absolute instant `4600`.  Only
the `dist/cjs/index.js` build adds `Date.now() / 1000`. -/
theorem c3_raw_duration_stored :
    (getAuthorizationCodeFlowAccessTokenTs1 ⟨"abc", 3600⟩ dualInit).authorization_code_flow_expires
      = 3600 ∧
    (3600 : ℚ) ≠ 1000 + 3600 ∧
    (getClientCredentialsFlowAccessTokenTs2 (.success ⟨"abc", 3600⟩) ccFlowInit).expires_in
      = .num 3600 ∧
    getClientCredentialsFlowAccessToken 1000 (.success ⟨"abc", 3600⟩) ccFlowInit
      = { access_token := .vStr "abc", expires_in := .num 4600 } := by
  refine ⟨?_, ?_, ?_, ?_⟩ <;>
    norm_num [getAuthorizationCodeFlowAccessTokenTs1, dualInit,
      getClientCredentialsFlowAccessTokenTs2, getClientCredentialsFlowAccessToken,
      addExpires, ExchangeOutcome.accessTokenVal, ccFlowInit]

/-- Claim C4 (code bug): evaluation at the failing input.  With a stored
token that expires 1000 seconds in the future, an overrideless
`makeRequest` on the `src/src/index.ts` config-object variant still
performs a token exchange, because its guard references the expiry method
without calling it (`this._clientCredentialsFlowAccessTokenExpired`, no
parentheses) and a function object is always truthy; the `dist/cjs`
build, whose guard calls the method, performs none. -/
theorem c4_exchange_despite_unexpired :
    clientCredentialsFlowAccessTokenExpired 1000
      { access_token := .vStr "tok", expires_in := .num 2000 } = false ∧
    (makeRequestTs2 .vUndefined (.success ⟨"new", 3600⟩)
      { access_token := .vStr "tok", expires_in := .num 2000 }).didExchange = true ∧
    (makeRequest 1000 .vUndefined (.success ⟨"new", 3600⟩)
      { access_token := .vStr "tok", expires_in := .num 2000 }).didExchange = false := by
  refine ⟨?_, ?_, ?_⟩ <;>
    norm_num [makeRequest, makeRequestTs2, clientCredentialsFlowAccessTokenExpired,
      jsGt, JSVal.truthy]

/-- Claim C5 counterexample: the empty string is an explicitly supplied
access-token override, but it is falsy in JavaScript, so the code performs
a token exchange anyway and sends the freshly stored token rather than the
supplied one. -/
theorem c5_counterexample :
    (makeRequest 1000 (.vStr "") (.success ⟨"new", 3600⟩) ccFlowInit).didExchange = true ∧
    (makeRequest 1000 (.vStr "") (.success ⟨"new", 3600⟩) ccFlowInit).header
      = "Bearer new" := by
  constructor <;>
    norm_num [makeRequest, clientCredentialsFlowAccessTokenExpired, ccFlowInit,
      getClientCredentialsFlowAccessToken, addExpires, jsGt, JSVal.truthy,
      JSVal.toStr, ExchangeOutcome.accessTokenVal] <;> rfl

/-- Claim C5, amended: for every call with a **non-empty** access-token
override, no token-exchange call occurs and the supplied token is placed
unchanged in the `Authorization: Bearer` header. -/
theorem c5_override_bypass (now : ℚ) (s : String) (hs : s ≠ "")
    (outcome : ExchangeOutcome) (st : CCFlow) :
    (makeRequest now (.vStr s) outcome st).didExchange = false ∧
    (makeRequest now (.vStr s) outcome st).header = "Bearer " ++ s := by
  constructor <;> simp [makeRequest, JSVal.truthy, JSVal.toStr, hs]

/-- Witness for `c5_override_bypass` with the override `"abc"` on a fresh
manager whose exchange would fail. -/
theorem c5_override_bypass_witness :
    (makeRequest 1000 (.vStr "abc") .failure ccFlowInit).didExchange = false ∧
    (makeRequest 1000 (.vStr "abc") .failure ccFlowInit).header = "Bearer abc" :=
  c5_override_bypass 1000 "abc" (by decide) .failure ccFlowInit

/-- Claim C6 counterexample: (a) on an SPA manager whose PKCE verifier has
not been stored yet, the authorization-code body contains `client_secret`
and no `code_verifier` — the claim requires `code_verifier` for SPA/PKCE
clients; (b) on a manager without a `redirect_uri`, the body contains
neither — the claim requires exactly one. -/
theorem c6_counterexample :
    (mkLFSAPI "cid" .vUndefined (.vStr "http://cb") true).spa = true ∧
    bodyHasKey (getAuthFlowTokensBody (mkLFSAPI "cid" .vUndefined (.vStr "http://cb") true) "c1")
      "client_secret" = true ∧
    bodyHasKey (getAuthFlowTokensBody (mkLFSAPI "cid" .vUndefined (.vStr "http://cb") true) "c1")
      "code_verifier" = false ∧
    bodyHasKey (getAuthFlowTokensBody (mkLFSAPI "cid" (.vStr "sec") .vUndefined false) "c1")
      "client_secret" = false ∧
    bodyHasKey (getAuthFlowTokensBody (mkLFSAPI "cid" (.vStr "sec") .vUndefined false) "c1")
      "code_verifier" = false := by
  refine ⟨rfl, ?_, ?_, ?_, ?_⟩ <;>
    simp [bodyHasKey, getAuthFlowTokensBody, mkLFSAPI, JSVal.truthy]

/-- Claim C6, amended: every authorization-code exchange body contains
`grant_type=authorization_code`, `client_id`, `redirect_uri` and `code`;
`code_verifier` is included exactly when the SPA flag is set, the
`redirect_uri` is truthy and a PKCE verifier is stored; otherwise
`client_secret` is included exactly when the `redirect_uri` is truthy;
the two are never both present (and with no `redirect_uri`, neither is). -/
theorem c6_auth_code_body (m : LFSAPIState) (code : String) :
    ("grant_type", "authorization_code") ∈ getAuthFlowTokensBody m code ∧
    ("client_id", m.client_id) ∈ getAuthFlowTokensBody m code ∧
    ("redirect_uri", m.redirect_uri.toStr) ∈ getAuthFlowTokensBody m code ∧
    ("code", code) ∈ getAuthFlowTokensBody m code ∧
    bodyHasKey (getAuthFlowTokensBody m code) "code_verifier"
      = (m.spa && m.redirect_uri.truthy && m.pkce_code_verifier.truthy) ∧
    bodyHasKey (getAuthFlowTokensBody m code) "client_secret"
      = (!(m.spa && m.redirect_uri.truthy && m.pkce_code_verifier.truthy)
          && m.redirect_uri.truthy) ∧
    (bodyHasKey (getAuthFlowTokensBody m code) "code_verifier"
      && bodyHasKey (getAuthFlowTokensBody m code) "client_secret") = false := by
  cases hspa : m.spa <;> cases hru : m.redirect_uri.truthy <;>
    cases hv : m.pkce_code_verifier.truthy <;>
      simp [getAuthFlowTokensBody, bodyHasKey, hspa, hru, hv]

/-- Witness for `c6_auth_code_body` on a concrete confidential-client
manager. -/
theorem c6_auth_code_body_witness :
    ("grant_type", "authorization_code") ∈
      getAuthFlowTokensBody (mkLFSAPI "cid" (.vStr "sec") (.vStr "http://cb") false)
        "thecode" :=
  (c6_auth_code_body (mkLFSAPI "cid" (.vStr "sec") (.vStr "http://cb") false)
    "thecode").1

/-- Claim C7: for every verifier string, the derived PKCE code challenge
equals the Base64URL-no-padding encoding (`+`→`-`, `/`→`_`, trailing `=`
stripped) of the SHA-256 digest of the verifier's bytes; the derivation is
a pure deterministic function, and its output contains no `'+'`, `'/'` or
`'='` characters. -/
theorem c7_pkce_challenge (v : String) :
    generateCodeChallengeFromVerifier v = specDeriveChallenge v ∧
    (∀ w : String, w = v →
      generateCodeChallengeFromVerifier w = generateCodeChallengeFromVerifier v) ∧
    ∀ c ∈ (generateCodeChallengeFromVerifier v).data,
      c ≠ '+' ∧ c ≠ '/' ∧ c ≠ '=' := by
  have hb := sha256Bytes_lt v
  have hl : (sha256Bytes v).length % 3 = 2 := by rw [sha256Bytes_length]
  have key := b64_strip_eq_dropLast (sha256Bytes v) hb hl
  have hrt : hexPairsToBytes (sha256Hex v).data = sha256Bytes v := sha256_hex_roundtrip v
  refine ⟨?_, ?_, ?_⟩
  · unfold generateCodeChallengeFromVerifier specDeriveChallenge
    rw [hrt, key.1]
  · intro w hw; rw [hw]
  · intro c hc
    unfold generateCodeChallengeFromVerifier at hc
    rw [hrt] at hc
    simp only [String.data, replaceSlashWithUnderscore, replacePlusWithDash,
      List.map_map, List.mem_map, Function.comp] at hc
    obtain ⟨z, hz, rfl⟩ := hc
    have hne : z ≠ '=' := key.2 z hz
    by_cases h1 : z = '+' <;> by_cases h2 : z = '/' <;>
      simp [h1, h2, hne]

/-- Witness for `c7_pkce_challenge` at the verifier `"test"`. -/
theorem c7_pkce_challenge_witness :
    generateCodeChallengeFromVerifier "test" = specDeriveChallenge "test" :=
  (c7_pkce_challenge "test").1

/-- Claim C8: on the dual-record variant, a client-credentials acquisition
rewrites only the client-credentials token and expiry and leaves the
authorization-code record unchanged, and vice versa; consequently any
sequence of acquisitions of one flow kind leaves the other flow's record
untouched. -/
theorem c8_flow_isolation (s : DualState) (r : TokenResponse)
    (acqs : List Acquire) :
    (getClientCredentialsFlowAccessTokenTs1 r s).authorization_code_flow_access_token
        = s.authorization_code_flow_access_token ∧
    (getClientCredentialsFlowAccessTokenTs1 r s).authorization_code_flow_expires
        = s.authorization_code_flow_expires ∧
    (getClientCredentialsFlowAccessTokenTs1 r s).client_credentials_flow_access_token
        = r.access_token ∧
    (getAuthorizationCodeFlowAccessTokenTs1 r s).client_credentials_flow_access_token
        = s.client_credentials_flow_access_token ∧
    (getAuthorizationCodeFlowAccessTokenTs1 r s).client_credentials_flow_expires
        = s.client_credentials_flow_expires ∧
    (getAuthorizationCodeFlowAccessTokenTs1 r s).authorization_code_flow_access_token
        = r.access_token ∧
    ((∀ a ∈ acqs, a.isCC = true) →
      (acqs.foldl applyAcquire s).authorization_code_flow_access_token
          = s.authorization_code_flow_access_token ∧
      (acqs.foldl applyAcquire s).authorization_code_flow_expires
          = s.authorization_code_flow_expires) ∧
    ((∀ a ∈ acqs, a.isCC = false) →
      (acqs.foldl applyAcquire s).client_credentials_flow_access_token
          = s.client_credentials_flow_access_token ∧
      (acqs.foldl applyAcquire s).client_credentials_flow_expires
          = s.client_credentials_flow_expires) := by
  refine ⟨rfl, rfl, rfl, rfl, rfl, rfl, ?_, ?_⟩
  · exact foldl_cc_preserves_ac acqs s
  · exact foldl_ac_preserves_cc acqs s

/-- Witness for `c8_flow_isolation`: one client-credentials acquisition and
the singleton sequence of one more, on the fresh dual state. -/
theorem c8_flow_isolation_witness :
    (getClientCredentialsFlowAccessTokenTs1 ⟨"t", 10⟩ dualInit).authorization_code_flow_access_token
        = dualInit.authorization_code_flow_access_token ∧
    (([Acquire.cc ⟨"x", 5⟩].foldl applyAcquire dualInit).authorization_code_flow_access_token
        = dualInit.authorization_code_flow_access_token) :=
  ⟨(c8_flow_isolation dualInit ⟨"t", 10⟩ [Acquire.cc ⟨"x", 5⟩]).1,
   ((c8_flow_isolation dualInit ⟨"t", 10⟩ [Acquire.cc ⟨"x", 5⟩]).2.2.2.2.2.2.1
     (by intro a ha; simp only [List.mem_singleton] at ha; subst ha; rfl)).1⟩

/-- Claim C9 counterexample: on a freshly constructed client-credentials
manager (no `redirect_uri`; `verbose` defaults to `false`),
`generateAuthFlowURL` returns `undefined` and nothing at all is logged —
no error value or message reaches the caller. -/
theorem c9_counterexample :
    (generateAuthFlowURL (mkLFSAPI "cid" (.vStr "sec") .vUndefined false)
      "openid profile" (.vStr "state123") "u" "r").result = none ∧
    (generateAuthFlowURL (mkLFSAPI "cid" (.vStr "sec") .vUndefined false)
      "openid profile" (.vStr "state123") "u" "r").errlog = [] := by
  constructor <;>
    simp [generateAuthFlowURL, mkLFSAPI, JSVal.truthy, errorLog]

/-- Claim C9, amended: on a manager without a truthy `redirect_uri`,
`generateAuthFlowURL` aborts and returns no authorization URL
(`undefined`); the message "Cannot generate auth flow URL for client
credentials flow" goes to the `_error` logger, which prints it only when
`verbose` is enabled — the caller receives no error value. -/
theorem c9_cc_auth_url (m : LFSAPIState) (h : m.redirect_uri.truthy = false)
    (scope : String) (state : JSVal) (uuid rnd : String) :
    (generateAuthFlowURL m scope state uuid rnd).result = none ∧
    (generateAuthFlowURL m scope state uuid rnd).errlog =
      (if m.verbose then
        ["LFSAPI Error: Cannot generate auth flow URL for client credentials flow"]
      else []) := by
  constructor <;> simp [generateAuthFlowURL, errorLog, h]

/-- Witness for `c9_cc_auth_url` on a fresh client-credentials manager. -/
theorem c9_cc_auth_url_witness :
    (generateAuthFlowURL (mkLFSAPI "cid" (.vStr "sec") .vUndefined false)
      "scope" .vUndefined "u" "r").result = none ∧
    (generateAuthFlowURL (mkLFSAPI "cid" (.vStr "sec") .vUndefined false)
      "scope" .vUndefined "u" "r").errlog =
      (if (mkLFSAPI "cid" (.vStr "sec") .vUndefined false).verbose then
        ["LFSAPI Error: Cannot generate auth flow URL for client credentials flow"]
      else []) :=
  c9_cc_auth_url (mkLFSAPI "cid" (.vStr "sec") .vUndefined false) rfl
    "scope" .vUndefined "u" "r"

/-- Claim C10: the constructor initialises the PKCE pair to
`{ code_verifier: null, code_challenge: null }`; on a manager without the
SPA flag, `generateAuthFlowURL` leaves the PKCE pair unchanged; and
`getPKCEVerifier` returns the stored verifier — `null` until
`setPKCEVerifier` stores one. -/
theorem c10_pkce_frame (cid : String) (cs ru : JSVal) (spa : Bool)
    (m : LFSAPIState) (h : m.spa = false) (scope : String) (state : JSVal)
    (uuid rnd v : String) :
    getPKCEVerifier (mkLFSAPI cid cs ru spa) = .vNull ∧
    (mkLFSAPI cid cs ru spa).pkce_code_challenge = .vNull ∧
    (generateAuthFlowURL m scope state uuid rnd).stateAfter.pkce_code_verifier
        = m.pkce_code_verifier ∧
    (generateAuthFlowURL m scope state uuid rnd).stateAfter.pkce_code_challenge
        = m.pkce_code_challenge ∧
    getPKCEVerifier (setPKCEVerifier m v) = .vStr v := by
  refine ⟨rfl, rfl, ?_, ?_, rfl⟩ <;>
    · unfold generateAuthFlowURL
      split <;> simp [h] <;> split <;> simp

/-- Witness for `c10_pkce_frame` on a fresh authorization-code manager
without the SPA flag. -/
theorem c10_pkce_frame_witness :
    getPKCEVerifier (mkLFSAPI "cid" (.vStr "sec") (.vStr "http://cb") false) = .vNull ∧
    (mkLFSAPI "cid" (.vStr "sec") (.vStr "http://cb") false).pkce_code_challenge = .vNull ∧
    (generateAuthFlowURL (mkLFSAPI "cid" (.vStr "sec") (.vStr "http://cb") false)
      "scope" .vUndefined "u" "r").stateAfter.pkce_code_verifier
        = (mkLFSAPI "cid" (.vStr "sec") (.vStr "http://cb") false).pkce_code_verifier ∧
    (generateAuthFlowURL (mkLFSAPI "cid" (.vStr "sec") (.vStr "http://cb") false)
      "scope" .vUndefined "u" "r").stateAfter.pkce_code_challenge
        = (mkLFSAPI "cid" (.vStr "sec") (.vStr "http://cb") false).pkce_code_challenge ∧
    getPKCEVerifier (setPKCEVerifier (mkLFSAPI "cid" (.vStr "sec") (.vStr "http://cb") false) "ver")
        = .vStr "ver" :=
  c10_pkce_frame "cid" (.vStr "sec") (.vStr "http://cb") false
    (mkLFSAPI "cid" (.vStr "sec") (.vStr "http://cb") false) rfl
    "scope" .vUndefined "u" "r" "ver"
